import Mathlib

set_option autoImplicit false

/-
Verification of the realtime fan-out core (Hub/Client/Redis integration) of
the chat service.  The definitions below are a shallow embedding of
internal/pkg/websocket/hub.go and client.go: dynamic JSON payloads become an
association-list value type, the Go channels' buffered contents and
closed-ness are carried explicitly in the hub state, and the externally
visible operations of each handler (persistence calls, local sends, Redis
publishes, presence updates, channel closes) are collected as an action
trace in program order.
-/

namespace Realtime

/-- JSON-style dynamic values as produced by Go's json.Unmarshal into
`map[string]interface{}`.  JSON numbers (Go float64) are modelled as
integers, which covers every numeric payload the router inspects
(identifiers, flags and timestamps).  A Go type assertion `.(float64)`
succeeds exactly on `num`, and `.(string)` exactly on `str`. -/
inductive JVal where
  | num (n : Int)
  | str (s : String)
  | bool (b : Bool)
  | null
  deriving DecidableEq, Repr

/-- Lookup in a Go map modelled as an association list. -/
def alGet {α β : Type} [DecidableEq α] : List (α × β) → α → Option β
  | [], _ => none
  | p :: t, k => if p.1 = k then some p.2 else alGet t k

/-- Deletion from a Go map modelled as an association list. -/
def alErase {α β : Type} [DecidableEq α] (l : List (α × β)) (k : α) : List (α × β) :=
  l.filter (fun p => p.1 ≠ k)

/-- Insert-or-replace in a Go map modelled as an association list. -/
def alSet {α β : Type} [DecidableEq α] (l : List (α × β)) (k : α) (v : β) : List (α × β) :=
  (k, v) :: alErase l k

/-- Payload of an envelope, Go's `map[string]interface{}`. -/
abbrev JObj := List (String × JVal)

/-- Wire message from hub.go: event name plus payload; `data = none` models a
nil Go map (writes to a nil map are impossible, reads yield nothing). -/
structure Message where
  event : String
  data : Option JObj
  deriving DecidableEq, Repr

/-- BroadcastMessage from hub.go: the envelope together with the sender
identity stamped by the Connection that read it. -/
structure BroadcastMessage where
  message : Message
  senderID : Nat
  deriving DecidableEq, Repr

/-- Read a payload key the way Go reads a possibly-nil map. -/
def dataGet (bm : BroadcastMessage) (k : String) : Option JVal :=
  alGet (bm.message.data.getD []) k

/-- Go type assertion `v.(float64)` on a payload value. -/
def asNum : Option JVal → Option Int
  | some (JVal.num n) => some n
  | _ => none

/-- Go type assertion `v.(string)` on a payload value. -/
def asStr : Option JVal → Option String
  | some (JVal.str s) => some s
  | _ => none

/-- Go conversion `uint(x)` of a numeric payload value, with the 64-bit
wraparound that conversion performs on in-range values. -/
def uintOf (n : Int) : Nat := (n % (2 ^ 64 : Int)).toNat

/-- validateMessage from hub.go: an empty event name or a nil payload is
rejected, and the four data-carrying events require their discriminating key
with the right dynamic type.  Returning true means no error. -/
def validateMessage (m : Message) : Bool :=
  if m.event = "" then false
  else
    match m.data with
    | none => false
    | some d =>
      match m.event with
      | "send_private_message" => (asNum (alGet d ("receiver_id"))).isSome
      | "send_group_message" => (asNum (alGet d ("group_id"))).isSome
      | "user_typing" => (asStr (alGet d ("conversation_id"))).isSome
      | "message_read" => (asNum (alGet d ("message_id"))).isSome
      | _ => true

/-- A persisted private_messages row as created by savePrivateMessageToDB. -/
structure PrivRow where
  id : Nat
  senderID : Nat
  receiverID : Nat
  content : String
  msgType : String
  fileID : Option Nat
  createdAt : Nat
  updatedAt : Nat
  deriving DecidableEq, Repr

/-- A persisted group_messages row as created by saveGroupMessageToDB. -/
structure GrpRow where
  id : Nat
  groupID : Nat
  senderID : Nat
  content : String
  msgType : String
  fileID : Option Nat
  createdAt : Nat
  updatedAt : Nat
  deriving DecidableEq, Repr

/-- State of the persistence collaborator visible to the router: existing
user identities, the group_members rows as (group_id, user_id) pairs, both
message tables, the next generated identifier, and the clock that stamps
created_at/updated_at. -/
structure DB where
  users : List Nat
  members : List (Nat × Nat)
  privRows : List PrivRow
  grpRows : List GrpRow
  nextId : Nat
  now : Nat
  deriving DecidableEq, Repr

/-- Fields of the created row that the handler copies into the payload. -/
structure SavedMsg where
  id : Nat
  createdAt : Nat
  updatedAt : Nat
  deriving DecidableEq, Repr

/-- Message-type extraction shared by both save helpers:
the payload key "type" when it is a non-empty string, else "text". -/
def msgTypeOf (d : JObj) : String :=
  match asStr (alGet d ("type")) with
  | some t => if t = "" then "text" else t
  | none => "text"

/-- File-reference extraction shared by both save helpers: the payload key
"file_id" when it is a number greater than zero. -/
def fileIDOf (d : JObj) : Option Nat :=
  match asNum (alGet d ("file_id")) with
  | some f => if 0 < f then some (uintOf f) else none
  | none => none

/-- savePrivateMessageToDB: fails when the receiver does not exist, otherwise
creates the row transactionally and returns the generated identifier and
timestamps together with the new database state. -/
def savePrivateMessageToDB (db : DB) (senderID receiverID : Nat) (content : String)
    (d : JObj) : Option (SavedMsg × DB) :=
  if receiverID ∈ db.users then
    some ({ id := db.nextId, createdAt := db.now, updatedAt := db.now },
      { db with
          privRows := db.privRows ++
            [{ id := db.nextId, senderID := senderID, receiverID := receiverID,
               content := content, msgType := msgTypeOf d, fileID := fileIDOf d,
               createdAt := db.now, updatedAt := db.now }],
          nextId := db.nextId + 1 })
  else none

/-- saveGroupMessageToDB: fails when the sender is not a member of the group
(the membership check precedes the insert, so a rejected send leaves no
row), otherwise creates the row and returns the generated fields. -/
def saveGroupMessageToDB (db : DB) (senderID groupID : Nat) (content : String)
    (d : JObj) : Option (SavedMsg × DB) :=
  if (groupID, senderID) ∈ db.members then
    some ({ id := db.nextId, createdAt := db.now, updatedAt := db.now },
      { db with
          grpRows := db.grpRows ++
            [{ id := db.nextId, groupID := groupID, senderID := senderID,
               content := content, msgType := msgTypeOf d, fileID := fileIDOf d,
               createdAt := db.now, updatedAt := db.now }],
          nextId := db.nextId + 1 })
  else none

/-- Externally visible operations a hub handler performs, in program order:
persistence calls, best-effort local sends (Hub.SendToUser), Redis publishes
(redis.BroadcastToChannel), typing markers and presence updates
(redis.SetUserTyping / SetUserOnline / SetUserOffline), Send-channel closes
and subscriber stops. -/
inductive Action where
  | persistPriv (senderID receiverID : Nat) (content : String)
  | persistGrp (senderID groupID : Nat) (content : String)
  | sendLocal (userID : Nat) (event : String) (d : JObj)
  | publish (channel : String) (event : String) (d : JObj)
  | setTyping (userID : Nat) (conversationID : String)
  | setOnline (userID : Nat)
  | setOffline (userID : Nat)
  | closeSend (cid : Nat)
  | stopSub (cid : Nat)
  deriving DecidableEq, Repr

/-- Payload after the handler merges the generated identifier and timestamps
(updatedData in handlePrivateMessage / handleGroupMessage). -/
def mergedData (d : JObj) (saved : SavedMsg) : JObj :=
  alSet (alSet (alSet d ("message_id") (JVal.num saved.id))
      ("created_at") (JVal.num saved.createdAt))
    ("updated_at") (JVal.num saved.updatedAt)

/-- Per-user Redis topic the hub publishes user-directed traffic on. -/
def userChannel (uid : Nat) : String := "ws:user:" ++ toString uid

/-- Group-scoped Redis topic handleGroupMessage publishes on. -/
def groupChannel (gid : Nat) : String := "ws:group:" ++ toString gid

/-- Topic a Connection subscribes to in StartRedisSubscriber: its own
per-user topic and nothing else. -/
def subscribedChannel (uid : Nat) : String := "ws:user:" ++ toString uid

/-- handlePrivateMessage: extract the receiver and the content, persist, and
on success merge the generated fields into the payload and perform the two
local sends.  Returns the new database state and the emitted operations. -/
def handlePrivateMessage (db : DB) (bm : BroadcastMessage) : DB × List Action :=
  match asNum (dataGet bm ("receiver_id")) with
  | none => (db, [])
  | some rid =>
    match asStr (dataGet bm ("content")) with
    | none => (db, [])
    | some content =>
      match savePrivateMessageToDB db bm.senderID (uintOf rid) content
          (bm.message.data.getD []) with
      | none => (db, [Action.persistPriv bm.senderID (uintOf rid) content])
      | some (saved, db') =>
        (db', [Action.persistPriv bm.senderID (uintOf rid) content,
               Action.sendLocal (uintOf rid) ("private_message")
                 (mergedData (bm.message.data.getD []) saved),
               Action.sendLocal bm.senderID ("message_sent")
                 (mergedData (bm.message.data.getD []) saved)])

/-- handleGroupMessage: extract the group and the content, persist, and on
success merge the generated fields and publish once on the group-scoped
Redis topic.  No membership lookup and no per-user send happens here. -/
def handleGroupMessage (db : DB) (bm : BroadcastMessage) : DB × List Action :=
  match asNum (dataGet bm ("group_id")) with
  | none => (db, [])
  | some gid =>
    match asStr (dataGet bm ("content")) with
    | none => (db, [])
    | some content =>
      match saveGroupMessageToDB db bm.senderID (uintOf gid) content
          (bm.message.data.getD []) with
      | none => (db, [Action.persistGrp bm.senderID (uintOf gid) content])
      | some (saved, db') =>
        (db', [Action.persistGrp bm.senderID (uintOf gid) content,
               Action.publish (groupChannel (uintOf gid)) ("group_message")
                 (mergedData (bm.message.data.getD []) saved)])

/-- Go strings.HasPrefix. -/
def strHasPfx (pre s : String) : Bool :=
  decide (s.data.take pre.data.length = pre.data)

/-- Go strings.TrimPrefix. -/
def strTrimPfx (pre s : String) : String :=
  if strHasPfx pre s then String.mk (s.data.drop pre.data.length) else s

/-- Value of a decimal digit string. -/
def digitsVal (l : List Char) : Nat := l.foldl (fun a c => a * 10 + (c.toNat - 48)) 0

/-- Go strconv.ParseUint(s, 10, 32): succeeds exactly on a nonempty all-digit
string whose value fits in 32 bits. -/
def parseUint32 (s : String) : Option Nat :=
  if s.data ≠ [] ∧ s.data.all Char.isDigit = true then
    if digitsVal s.data < 4294967296 then some (digitsVal s.data) else none
  else none

/-- Broadcast payload built by handleTypingIndicator: the sender's identity,
the optional username and is_typing values copied from the inbound payload,
the chat type, and the computed chat identity. -/
def typingPayload (bm : BroadcastMessage) (chatType : String) (chatID : Nat) : JObj :=
  [("user_id", JVal.num bm.senderID),
   ("username", (dataGet bm ("username")).getD JVal.null),
   ("is_typing", (dataGet bm ("is_typing")).getD JVal.null),
   ("chat_type", JVal.str chatType),
   ("chat_id", JVal.num chatID)]

/-- All group_members rows for one group, in table order. -/
def groupMembersOf (db : DB) (gid : Nat) : List Nat :=
  db.members.filterMap (fun p => if p.1 = gid then some p.2 else none)

/-- handleTypingIndicator: write the typing marker, then parse the composite
conversation key.  A private key sends one notification to the embedded
identity with chat_id set to the sender; a group key fans out to every
member except the sender with chat_id set to the group; an unparsable key
sends nothing. -/
def handleTypingIndicator (db : DB) (bm : BroadcastMessage) : List Action :=
  match asStr (dataGet bm ("conversation_id")) with
  | none => []
  | some conversationID =>
    Action.setTyping bm.senderID conversationID ::
      (if strHasPfx ("private:") conversationID then
        match parseUint32 (strTrimPfx ("private:") conversationID) with
        | none => []
        | some chatID =>
          [Action.sendLocal chatID ("typing") (typingPayload bm ("private") bm.senderID)]
      else if strHasPfx ("group:") conversationID then
        match parseUint32 (strTrimPfx ("group:") conversationID) with
        | none => []
        | some chatID =>
          (groupMembersOf db chatID).filterMap (fun uid =>
            if uid ≠ bm.senderID then
              some (Action.sendLocal uid ("typing") (typingPayload bm ("group") chatID))
            else none)
      else [])

/-- handleBroadcast: the validation gate followed by the event switch.
message_read and pong only log; unknown events are dropped. -/
def handleBroadcast (db : DB) (bm : BroadcastMessage) : DB × List Action :=
  if validateMessage bm.message then
    match bm.message.event with
    | "send_private_message" => handlePrivateMessage db bm
    | "send_group_message" => handleGroupMessage db bm
    | "user_typing" => (db, handleTypingIndicator db bm)
    | "message_read" => (db, [])
    | "ping" =>
      (db, [Action.sendLocal bm.senderID ("pong")
        [("timestamp", JVal.str (toString db.now))]])
    | "pong" => (db, [])
    | _ => (db, [])
  else (db, [])

/-- One Connection.  The field cid stands for the Go pointer identity of the
Client struct (distinct instances have distinct cids); userID and username
are the authenticated identity fixed at upgrade time. -/
structure ClientC where
  cid : Nat
  userID : Nat
  username : String
  deriving DecidableEq, Repr

/-- A queued outbound envelope (an element buffered on the Send channel). -/
abbrev QMsg := String × JObj

/-- Capacity of the Send channel: make(chan []byte, 256). -/
def sendCap : Nat := 256

/-- Hub-side state: the registry map, the buffered contents of every
Connection's Send channel keyed by instance, the set of closed Send
channels, and whether the serialized loop has hit a runtime fault (a close
of an already-closed channel, or a send on a closed channel). -/
structure HubState where
  registry : List (Nat × ClientC)
  queues : List (Nat × List QMsg)
  closed : List Nat
  crashed : Bool
  deriving DecidableEq, Repr

/-- Buffered contents of one instance's Send channel. -/
def queueOf (h : HubState) (cid : Nat) : List QMsg := (alGet h.queues cid).getD []

/-- Client.SendMessage: a non-blocking select on the Send channel — enqueue
when there is room, silently drop otherwise.  A send on a closed channel is
a runtime fault. -/
def sendMessage (h : HubState) (c : ClientC) (event : String) (d : JObj) : HubState :=
  if c.cid ∈ h.closed then { h with crashed := true }
  else if (queueOf h c.cid).length < sendCap then
    { h with queues := alSet h.queues c.cid (queueOf h c.cid ++ [(event, d)]) }
  else h

/-- Hub.SendToUser: look the identity up in the registry and do a
best-effort SendMessage; no registered Connection means no effect. -/
def sendToUser (h : HubState) (userID : Nat) (event : String) (d : JObj) : HubState :=
  match alGet h.registry userID with
  | none => h
  | some c => sendMessage h c event d

/-- Whole-system state seen by the serialized loop. -/
structure SysState where
  hub : HubState
  db : DB
  deriving DecidableEq, Repr

/-- The three kinds of requests the loop serializes. -/
inductive Op where
  | reg (c : ClientC)
  | unreg (c : ClientC)
  | bcast (bm : BroadcastMessage)
  deriving DecidableEq, Repr

/-- Closing a Send channel; a second close is a runtime fault. -/
def closeChan (h : HubState) (cid : Nat) : HubState :=
  if cid ∈ h.closed then { h with crashed := true }
  else { h with closed := cid :: h.closed }

/-- registerClient: unconditional insert keyed by the identity, then the
presence mark and the online user_status publish on the user's own topic. -/
def registerClient (s : SysState) (c : ClientC) : SysState × List Action :=
  ({ s with hub := { s.hub with registry := alSet s.hub.registry c.userID c } },
   [Action.setOnline c.userID,
    Action.publish (userChannel c.userID) ("user_status")
      [("user_id", JVal.num c.userID), ("is_online", JVal.bool true)]])

/-- unregisterClient: when any entry exists for the identity, delete it and
close the argument's own Send channel; then, unconditionally, stop the
subscriber, clear presence, and publish the offline user_status. -/
def unregisterClient (s : SysState) (c : ClientC) : SysState × List Action :=
  let step1 : HubState × List Action :=
    if (alGet s.hub.registry c.userID).isSome then
      (closeChan { s.hub with registry := alErase s.hub.registry c.userID } c.cid,
       [Action.closeSend c.cid])
    else (s.hub, [])
  ({ s with hub := step1.1 },
   step1.2 ++ [Action.stopSub c.cid, Action.setOffline c.userID,
     Action.publish (userChannel c.userID) ("user_status")
       [("user_id", JVal.num c.userID), ("is_online", JVal.bool false),
        ("last_seen", JVal.str (toString s.db.now))]])

/-- Apply a handler-emitted local send to the hub state (the other operations
address external collaborators, not the in-process hub). -/
def applyAction (h : HubState) : Action → HubState
  | Action.sendLocal uid event d => sendToUser h uid event d
  | _ => h

/-- One iteration of Hub.Run's select loop. -/
def hubStep (s : SysState) : Op → SysState × List Action
  | Op.reg c => registerClient s c
  | Op.unreg c => unregisterClient s c
  | Op.bcast bm =>
    let r := handleBroadcast s.db bm
    ({ hub := r.2.foldl applyAction s.hub, db := r.1 }, r.2)

/-- Process a whole request sequence, collecting the emitted operations. -/
def run (s : SysState) : List Op → SysState × List Action
  | [] => (s, [])
  | op :: ops =>
    let r1 := hubStep s op
    let r2 := run r1.1 ops
    (r2.1, r1.2 ++ r2.2)

/-- ReadPump's per-message processing after a successful decode: stamp the
connection's own identity into the payload (sender_id, sender_username) and
wrap the envelope with the connection's identity as the sender. -/
def readPumpForward (userID : Nat) (username : String) (m : Message) : BroadcastMessage :=
  { message :=
      { event := m.event,
        data := some (alSet (alSet (m.data.getD []) ("sender_id") (JVal.num userID))
          ("sender_username") (JVal.str username)) },
    senderID := userID }

/-- Instance identities carried by the register requests of a sequence. -/
def regCids (ops : List Op) : List Nat :=
  ops.filterMap (fun op => match op with | Op.reg c => some c.cid | _ => none)

/-- Instance identities carried by the unregister requests of a sequence. -/
def unregCids (ops : List Op) : List Nat :=
  ops.filterMap (fun op => match op with | Op.unreg c => some c.cid | _ => none)

/-- Client records named by the register and unregister requests. -/
def clientsOf (ops : List Op) : List ClientC :=
  ops.filterMap (fun op =>
    match op with
    | Op.reg c => some c
    | Op.unreg c => some c
    | Op.bcast _ => none)

/-- No instance is re-registered after its own unregister request. -/
def noRegAfterUnreg : List Op → Bool
  | [] => true
  | Op.unreg c :: t => decide (Op.reg c ∉ t) && noRegAfterUnreg t
  | _ :: t => noRegAfterUnreg t

/-- Shape of every request stream the surrounding program can feed the loop:
each Connection instance is registered at most once (a fresh struct with a
fresh Send channel per socket upgrade), unregistered at most once (the one
deferred unregister in ReadPump), never re-registered after its unregister,
and instance identity is injective across requests. -/
def ProgramLike (ops : List Op) : Prop :=
  (regCids ops).Nodup ∧ (unregCids ops).Nodup ∧
  (clientsOf ops).Pairwise (fun a b => a.cid = b.cid → a = b) ∧
  noRegAfterUnreg ops = true

/-- Number of closes of one instance's Send channel in a trace. -/
def closeCount (acts : List Action) (x : Nat) : Nat :=
  (acts.filter (fun a =>
    match a with
    | Action.closeSend y => decide (y = x)
    | _ => false)).length

/-- Delivery attempts: local sends and Redis publishes. -/
def isDelivery : Action → Bool
  | Action.sendLocal _ _ _ => true
  | Action.publish _ _ _ => true
  | _ => false

/-- Persistence calls. -/
def isPersist : Action → Bool
  | Action.persistPriv _ _ _ => true
  | Action.persistGrp _ _ _ => true
  | _ => false

/-- Local sends in a trace addressed to one user with one event name. -/
def sendLocalCount (acts : List Action) (uid : Nat) (event : String) : Nat :=
  (acts.filter (fun a =>
    match a with
    | Action.sendLocal u e _ => decide (u = uid ∧ e = event)
    | _ => false)).length

/-- Publishes in a trace addressed to one channel. -/
def publishCount (acts : List Action) (ch : String) : Nat :=
  (acts.filter (fun a =>
    match a with
    | Action.publish c _ _ => decide (c = ch)
    | _ => false)).length

/-- Malformed-envelope conditions named by the spec: empty event name, nil
payload, or a missing (or wrongly typed) required key for the event type;
content is required by the handlers of the two message events. -/
def missingRequired (bm : BroadcastMessage) : Prop :=
  bm.message.event = "" ∨ bm.message.data = none ∨
  (bm.message.event = "send_private_message" ∧
    (asNum (dataGet bm ("receiver_id")) = none ∨ asStr (dataGet bm ("content")) = none)) ∨
  (bm.message.event = "send_group_message" ∧
    (asNum (dataGet bm ("group_id")) = none ∨ asStr (dataGet bm ("content")) = none)) ∨
  (bm.message.event = "user_typing" ∧ asStr (dataGet bm ("conversation_id")) = none) ∨
  (bm.message.event = "message_read" ∧ asNum (dataGet bm ("message_id")) = none)

/-- Boot state of the loop: empty registry, no buffered or closed channels. -/
def boot (db : DB) : SysState :=
  { hub := { registry := [], queues := [], closed := [], crashed := false }, db := db }

/-- Invariant carried by the serialized loop while a request sequence is
still pending: no fault so far, registry keys match their clients'
identities, registered Send channels are open, and the pending requests
respect instance freshness with respect to the state reached so far. -/
structure GInv (s : SysState) (ops : List Op) : Prop where
  nocrash : s.hub.crashed = false
  keys : ∀ p ∈ s.hub.registry, (p.2).userID = p.1
  fresh : ∀ p ∈ s.hub.registry, (p.2).cid ∉ s.hub.closed
  regN : (regCids ops).Nodup
  unregN : (unregCids ops).Nodup
  inj : (clientsOf ops).Pairwise (fun a b => a.cid = b.cid → a = b)
  noRAU : noRegAfterUnreg ops = true
  regFresh : ∀ p ∈ s.hub.registry, (p.2).cid ∉ regCids ops
  det : ∀ p ∈ s.hub.registry, ∀ c ∈ clientsOf ops, c.cid = (p.2).cid → c = p.2
  closedDone : ∀ x ∈ s.hub.closed, x ∉ regCids ops ∧ x ∉ unregCids ops

/-- Convenience constructor for an inbound envelope with its stamped sender. -/
def mkBM (event : String) (d : JObj) (sender : Nat) : BroadcastMessage :=
  { message := { event := event, data := some d }, senderID := sender }

/-- Fixture for the private-message claims: users 1 and 2 exist. -/
def dbC1 : DB :=
  { users := [1, 2], members := [], privRows := [], grpRows := [], nextId := 7, now := 100 }

/-- Fixture envelope: a valid send_private_message from user 1 to user 2. -/
def bmC1 : BroadcastMessage :=
  mkBM ("send_private_message") [("receiver_id", JVal.num 2), ("content", JVal.str "hi")] 1

/-- Generated row fields for the bmC1 persistence call against dbC1. -/
def savedC1 : SavedMsg := { id := 7, createdAt := 100, updatedAt := 100 }

/-- Row created by persisting bmC1 against dbC1. -/
def rowC1 : PrivRow :=
  { id := 7, senderID := 1, receiverID := 2, content := "hi", msgType := "text",
    fileID := none, createdAt := 100, updatedAt := 100 }

/-- Database state after persisting bmC1 against dbC1. -/
def dbC1' : DB :=
  { users := [1, 2], members := [], privRows := [rowC1], grpRows := [], nextId := 8, now := 100 }

/-- Fixture for the group-message claims: group 5 has members 1, 2 and 3. -/
def dbC2 : DB :=
  { users := [1, 2, 3], members := [(5, 1), (5, 2), (5, 3)], privRows := [],
    grpRows := [], nextId := 9, now := 200 }

/-- Fixture envelope: a valid send_group_message from member 1 to group 5. -/
def bmC2 : BroadcastMessage :=
  mkBM ("send_group_message") [("group_id", JVal.num 5), ("content", JVal.str "yo")] 1

/-- Generated row fields for the bmC2 persistence call against dbC2. -/
def savedC2 : SavedMsg := { id := 9, createdAt := 200, updatedAt := 200 }

/-- Row created by persisting bmC2 against dbC2. -/
def rowC2 : GrpRow :=
  { id := 9, groupID := 5, senderID := 1, content := "yo", msgType := "text",
    fileID := none, createdAt := 200, updatedAt := 200 }

/-- Database state after persisting bmC2 against dbC2. -/
def dbC2' : DB :=
  { users := [1, 2, 3], members := [(5, 1), (5, 2), (5, 3)], privRows := [],
    grpRows := [rowC2], nextId := 10, now := 200 }

/-- Empty database fixture for the registry-level claims. -/
def emptyDB : DB := { users := [], members := [], privRows := [], grpRows := [], nextId := 0, now := 0 }

/-- An older connection of user 1. -/
def cOld : ClientC := { cid := 1, userID := 1, username := "alice" }

/-- A newer connection of the same user 1. -/
def cNew : ClientC := { cid := 2, userID := 1, username := "alice" }

/-- State in which user 1's registry entry belongs to the newer connection
while the older one is still closing: register old, then register new. -/
def sEvict : SysState := (run (boot emptyDB) [Op.reg cOld, Op.reg cNew]).1

/-- Connection fixture for the unregister-idempotence claim. -/
def cIdem : ClientC := { cid := 4, userID := 9, username := "bob" }

/-- State after user 9's connection registered and already unregistered. -/
def sGone : SysState := (run (boot emptyDB) [Op.reg cIdem, Op.unreg cIdem]).1

/-- Fixture for the persistence-failure claim: group 5 exists with member 2
only, so sender 1 is rejected by the membership check. -/
def dbC5 : DB :=
  { users := [1, 2], members := [(5, 2)], privRows := [], grpRows := [], nextId := 3, now := 50 }

/-- Fixture envelope: send_group_message from non-member 1 to group 5. -/
def bmC5 : BroadcastMessage :=
  mkBM ("send_group_message") [("group_id", JVal.num 5), ("content", JVal.str "yo")] 1

/-- Fixture envelope: a send_private_message with the content key missing. -/
def bmC6 : BroadcastMessage :=
  mkBM ("send_private_message") [("receiver_id", JVal.num 2)] 1

/-- Two distinct connection instances used by the loop-safety witness. -/
def cS1 : ClientC := { cid := 11, userID := 1, username := "alice" }

/-- Second fresh instance for the same user as cS1. -/
def cS2 : ClientC := { cid := 12, userID := 1, username := "alice" }

/-- A program-shaped request sequence: connect, chat, reconnect, disconnect. -/
def opsSafe : List Op :=
  [Op.reg cS1, Op.bcast bmC1, Op.unreg cS1, Op.reg cS2, Op.bcast bmC6, Op.unreg cS2]

/-- Fixture envelope: user_typing in the private conversation with user 2. -/
def bmC8 : BroadcastMessage :=
  mkBM ("user_typing") [("conversation_id", JVal.str "private:2"), ("is_typing", JVal.bool true)] 1

/-- Registered connection fixture for the SendToUser claim. -/
def cSend : ClientC := { cid := 6, userID := 1, username := "alice" }

/-- Hub fixture with exactly user 1 registered and an empty queue. -/
def hSend : HubState :=
  { registry := [(1, cSend)], queues := [], closed := [], crashed := false }

theorem alGet_cons {α β : Type} [DecidableEq α] (p : α × β) (t : List (α × β)) (k : α) :
    alGet (p :: t) k = if p.1 = k then some p.2 else alGet t k := rfl

theorem alErase_cons_eq {α β : Type} [DecidableEq α] (p : α × β) (t : List (α × β)) (k : α)
    (h : p.1 = k) : alErase (p :: t) k = alErase t k := by
  simp [alErase, List.filter_cons, h]

theorem alErase_cons_ne {α β : Type} [DecidableEq α] (p : α × β) (t : List (α × β)) (k : α)
    (h : ¬ p.1 = k) : alErase (p :: t) k = p :: alErase t k := by
  simp [alErase, List.filter_cons, h]

theorem alGet_alSet_self {α β : Type} [DecidableEq α] (l : List (α × β)) (k : α) (v : β) :
    alGet (alSet l k v) k = some v := by
  simp [alSet, alGet]

theorem alGet_alErase_self {α β : Type} [DecidableEq α] (l : List (α × β)) (k : α) :
    alGet (alErase l k) k = none := by
  induction l with
  | nil => rfl
  | cons p t ih =>
    by_cases h : p.1 = k
    · rw [alErase_cons_eq p t k h]
      exact ih
    · rw [alErase_cons_ne p t k h, alGet_cons, if_neg h]
      exact ih

theorem alGet_alErase_ne {α β : Type} [DecidableEq α] (l : List (α × β)) (k k' : α) (h : k' ≠ k) :
    alGet (alErase l k) k' = alGet l k' := by
  induction l with
  | nil => rfl
  | cons p t ih =>
    by_cases hp : p.1 = k
    · have hpk : ¬ p.1 = k' := by
        rw [hp]
        exact fun e => h e.symm
      rw [alErase_cons_eq p t k hp, alGet_cons, if_neg hpk]
      exact ih
    · rw [alErase_cons_ne p t k hp, alGet_cons, alGet_cons]
      by_cases hq : p.1 = k'
      · rw [if_pos hq, if_pos hq]
      · rw [if_neg hq, if_neg hq]
        exact ih

theorem alGet_alSet_ne {α β : Type} [DecidableEq α] (l : List (α × β)) (k k' : α) (v : β)
    (h : k' ≠ k) : alGet (alSet l k v) k' = alGet l k' := by
  have hk : ¬ k = k' := fun hk => h hk.symm
  simp only [alSet, alGet_cons, if_neg hk]
  exact alGet_alErase_ne l k k' h

theorem alGet_mem {α β : Type} [DecidableEq α] (l : List (α × β)) (k : α) (v : β)
    (h : alGet l k = some v) : (k, v) ∈ l := by
  induction l with
  | nil => simp [alGet] at h
  | cons p t ih =>
    rw [alGet_cons] at h
    by_cases hp : p.1 = k
    · rw [if_pos hp] at h
      obtain ⟨a, b⟩ := p
      cases h
      cases hp
      exact List.mem_cons_self _ _
    · rw [if_neg hp] at h
      exact List.mem_cons_of_mem _ (ih h)

theorem mem_alErase {α β : Type} [DecidableEq α] (l : List (α × β)) (k : α) (p : α × β) :
    p ∈ alErase l k ↔ p ∈ l ∧ p.1 ≠ k := by
  simp [alErase, List.mem_filter]

theorem mem_alSet {α β : Type} [DecidableEq α] (l : List (α × β)) (k : α) (v : β) (p : α × β) :
    p ∈ alSet l k v ↔ p = (k, v) ∨ (p ∈ l ∧ p.1 ≠ k) := by
  simp [alSet, mem_alErase]

theorem strData_append (s t : String) : (s ++ t).data = s.data ++ t.data := by
  cases s; cases t; rfl

theorem strHasPfx_self_append (pre s : String) : strHasPfx pre (pre ++ s) = true := by
  simp [strHasPfx, strData_append, List.take_left]

theorem strTrimPfx_self_append (pre s : String) : strTrimPfx pre (pre ++ s) = s := by
  simp [strTrimPfx, strHasPfx_self_append, strData_append, List.drop_left]

theorem strHasPfx_recompose (pre s : String) (h : strHasPfx pre s = true) :
    pre ++ strTrimPfx pre s = s := by
  have hd : s.data.take pre.data.length = pre.data := by
    simpa [strHasPfx] using h
  have hpre : pre.data <+: s.data := by
    rw [List.prefix_iff_eq_take]
    exact hd.symm
  obtain ⟨r, hr⟩ := hpre
  have hdrop : s.data.drop pre.data.length = r := by
    rw [← hr, List.drop_left]
  have hdata : (pre ++ strTrimPfx pre s).data = s.data := by
    rw [strData_append, strTrimPfx, if_pos h]
    show pre.data ++ s.data.drop pre.data.length = s.data
    rw [hdrop, hr]
  calc pre ++ strTrimPfx pre s = String.mk (pre ++ strTrimPfx pre s).data := rfl
    _ = String.mk s.data := by rw [hdata]
    _ = s := rfl

theorem strHasPfx_private_of_group (s : String) :
    strHasPfx ("private:") ("group:" ++ s) = false := by
  simp [strHasPfx, strData_append]

theorem subscribedChannel_ne_groupChannel (a b : Nat) :
    subscribedChannel a ≠ groupChannel b := by
  intro h
  have hd := congrArg String.data h
  rw [subscribedChannel, groupChannel, strData_append, strData_append] at hd
  simp at hd

/-- C1 counterexample: for the valid private message bmC1 the persistence
call succeeds, yet the handler performs no cross-instance publish at all —
in particular none on the receiver's per-user topic — even though it does
perform the one local private_message send. -/
theorem privateMessage_publish_counterexample :
    (savePrivateMessageToDB dbC1 1 2 ("hi") (bmC1.message.data.getD [])).isSome = true ∧
    publishCount (handlePrivateMessage dbC1 bmC1).2 (userChannel 2) = 0 ∧
    (handlePrivateMessage dbC1 bmC1).2.filter
      (fun a => match a with | Action.publish _ _ _ => true | _ => false) = [] ∧
    sendLocalCount (handlePrivateMessage dbC1 bmC1).2 2 ("private_message") = 1 := by
  decide

/-- C1 (amended): when the payload carries a receiver and content and the
persistence call succeeds, handlePrivateMessage emits exactly the
persistence call, one local private_message send to the receiver carrying
the payload merged with the generated identifier and timestamps, and one
local message_sent confirmation to the sender with the same payload — and
nothing else, in particular no cross-instance publish. -/
theorem handlePrivateMessage_success_actions (db db' : DB) (bm : BroadcastMessage)
    (rid : Int) (content : String) (saved : SavedMsg)
    (hr : asNum (dataGet bm ("receiver_id")) = some rid)
    (hc : asStr (dataGet bm ("content")) = some content)
    (hs : savePrivateMessageToDB db bm.senderID (uintOf rid) content
      (bm.message.data.getD []) = some (saved, db')) :
    handlePrivateMessage db bm =
      (db', [Action.persistPriv bm.senderID (uintOf rid) content,
             Action.sendLocal (uintOf rid) ("private_message")
               (mergedData (bm.message.data.getD []) saved),
             Action.sendLocal bm.senderID ("message_sent")
               (mergedData (bm.message.data.getD []) saved)]) := by
  simp [handlePrivateMessage, hr, hc, hs]

/-- C1 witness: the amended behaviour evaluated on the concrete fixture. -/
theorem handlePrivateMessage_success_actions_witness :
    handlePrivateMessage dbC1 bmC1 =
      (dbC1', [Action.persistPriv bmC1.senderID (uintOf 2) ("hi"),
               Action.sendLocal (uintOf 2) ("private_message")
                 (mergedData (bmC1.message.data.getD []) savedC1),
               Action.sendLocal bmC1.senderID ("message_sent")
                 (mergedData (bmC1.message.data.getD []) savedC1)]) :=
  handlePrivateMessage_success_actions dbC1 dbC1' bmC1 2 ("hi") savedC1
    (by decide) (by decide) (by decide)

/-- C2 counterexample: for the valid group message bmC2 from member 1 the
persistence call succeeds, yet the handler does exactly one publish on the
group-scoped topic and no local send to any member; member 2's per-user
subscription topic is not the published topic, so no member's per-user
subscription receives the delivery. -/
theorem groupMessage_fanout_counterexample :
    (saveGroupMessageToDB dbC2 1 5 ("yo") (bmC2.message.data.getD [])).isSome = true ∧
    (handleGroupMessage dbC2 bmC2).2.filter isDelivery =
      [Action.publish (groupChannel 5) ("group_message")
        (mergedData (bmC2.message.data.getD []) savedC2)] ∧
    sendLocalCount (handleGroupMessage dbC2 bmC2).2 2 ("group_message") = 0 ∧
    publishCount (handleGroupMessage dbC2 bmC2).2 (subscribedChannel 2) = 0 ∧
    subscribedChannel 2 ≠ groupChannel 5 := by
  decide

/-- C2 (amended): when the payload carries a group and content and the
persistence call succeeds, handleGroupMessage emits exactly the persistence
call and one publish of the merged payload on the group-scoped topic
ws:group:(group id); it performs no membership lookup, no local send and no
per-user publish, and no per-user subscription topic ever equals a
group-scoped topic. -/
theorem handleGroupMessage_success_actions (db db' : DB) (bm : BroadcastMessage)
    (gid : Int) (content : String) (saved : SavedMsg)
    (hg : asNum (dataGet bm ("group_id")) = some gid)
    (hc : asStr (dataGet bm ("content")) = some content)
    (hs : saveGroupMessageToDB db bm.senderID (uintOf gid) content
      (bm.message.data.getD []) = some (saved, db')) :
    handleGroupMessage db bm =
      (db', [Action.persistGrp bm.senderID (uintOf gid) content,
             Action.publish (groupChannel (uintOf gid)) ("group_message")
               (mergedData (bm.message.data.getD []) saved)]) ∧
    subscribedChannel bm.senderID ≠ groupChannel (uintOf gid) := by
  constructor
  · simp [handleGroupMessage, hg, hc, hs]
  · exact subscribedChannel_ne_groupChannel _ _

/-- C2 witness: the amended behaviour evaluated on the concrete fixture. -/
theorem handleGroupMessage_success_actions_witness :
    handleGroupMessage dbC2 bmC2 =
      (dbC2', [Action.persistGrp bmC2.senderID (uintOf 5) ("yo"),
               Action.publish (groupChannel (uintOf 5)) ("group_message")
                 (mergedData (bmC2.message.data.getD []) savedC2)]) ∧
    subscribedChannel bmC2.senderID ≠ groupChannel (uintOf 5) :=
  handleGroupMessage_success_actions dbC2 dbC2' bmC2 5 ("yo") savedC2
    (by decide) (by decide) (by decide)

/-- C3 counterexample: after registering the older connection and then the
newer one under the same identity, unregistering the older connection
removes the identity's entry — the newer connection's registry entry is not
left in place as the claim states. -/
theorem unregister_evicts_newer_counterexample :
    cNew ≠ cOld ∧
    alGet sEvict.hub.registry 1 = some cNew ∧
    alGet ((run (boot emptyDB) [Op.reg cOld, Op.reg cNew, Op.unreg cOld]).1.hub.registry) 1
      = none := by
  decide

/-- C3 (amended): unregisterClient removes the registry entry for the
argument's user identity whenever any connection is currently registered
under that identity — it checks key presence only, not instance identity —
and closes the argument's own Send channel; an older connection's
unregister therefore evicts a newer connection registered under the same
identity. -/
theorem unregisterClient_removes_on_key_present (s : SysState) (c c' : ClientC)
    (h : alGet s.hub.registry c.userID = some c') :
    alGet (unregisterClient s c).1.hub.registry c.userID = none ∧
    Action.closeSend c.cid ∈ (unregisterClient s c).2 := by
  have hsome : (alGet s.hub.registry c.userID).isSome = true := by
    rw [h]
    rfl
  constructor
  · simp only [unregisterClient, hsome, if_pos, closeChan]
    split_ifs <;> simp [alGet_alErase_self]
  · simp [unregisterClient, hsome]

/-- C3 witness: the amended behaviour on the eviction fixture, where the
registered entry (the newer connection) is a different instance than the
one being unregistered. -/
theorem unregisterClient_removes_on_key_present_witness :
    alGet (unregisterClient sEvict cOld).1.hub.registry cOld.userID = none ∧
    Action.closeSend cOld.cid ∈ (unregisterClient sEvict cOld).2 :=
  unregisterClient_removes_on_key_present sEvict cOld cNew (by decide)

/-- C4 counterexample: with user 9's connection already unregistered (its
identity absent from the registry), a repeated unregister still performs a
presence-clear and still publishes another offline user_status
notification — the second call is not observation-free. -/
theorem unregister_repeat_counterexample :
    alGet sGone.hub.registry cIdem.userID = none ∧
    (unregisterClient sGone cIdem).2.filter
      (fun a => a = Action.setOffline cIdem.userID) = [Action.setOffline cIdem.userID] ∧
    publishCount (unregisterClient sGone cIdem).2 (userChannel cIdem.userID) = 1 := by
  decide

/-- C4 (amended): a repeated Unregister for an already-removed identity is a
no-op on the hub state (registry, queues and closed channels unchanged, no
second channel close), but its external side effects are unconditional: it
stops the subscriber again, clears presence again, and publishes another
offline user_status notification. -/
theorem unregisterClient_repeat_effects (s : SysState) (c : ClientC)
    (h : alGet s.hub.registry c.userID = none) :
    (unregisterClient s c).1.hub = s.hub ∧
    (unregisterClient s c).2 =
      [Action.stopSub c.cid, Action.setOffline c.userID,
       Action.publish (userChannel c.userID) ("user_status")
         [("user_id", JVal.num c.userID), ("is_online", JVal.bool false),
          ("last_seen", JVal.str (toString s.db.now))]] := by
  have hn : (alGet s.hub.registry c.userID).isSome = false := by
    rw [h]
    rfl
  constructor <;> simp [unregisterClient, hn]

/-- C4 witness: the amended behaviour on the already-unregistered fixture. -/
theorem unregisterClient_repeat_effects_witness :
    (unregisterClient sGone cIdem).1.hub = sGone.hub ∧
    (unregisterClient sGone cIdem).2 =
      [Action.stopSub cIdem.cid, Action.setOffline cIdem.userID,
       Action.publish (userChannel cIdem.userID) ("user_status")
         [("user_id", JVal.num cIdem.userID), ("is_online", JVal.bool false),
          ("last_seen", JVal.str (toString sGone.db.now))]] :=
  unregisterClient_repeat_effects sGone cIdem (by decide)

/-- C5: for a send_private_message or send_group_message envelope whose
persistence call fails (whatever fields the payload carries), the event is
abandoned atomically: the database is unchanged — no row is persisted — and
the emitted trace contains no local send and no publish, so no recipient
gets an envelope and the sender gets no message_sent confirmation. -/
theorem persistFailure_abandons (db : DB) (bm : BroadcastMessage)
    (hev : bm.message.event = "send_private_message" ∨
      bm.message.event = "send_group_message")
    (hpf : ∀ rid content, asNum (dataGet bm ("receiver_id")) = some rid →
      asStr (dataGet bm ("content")) = some content →
      savePrivateMessageToDB db bm.senderID (uintOf rid) content
        (bm.message.data.getD []) = none)
    (hgf : ∀ gid content, asNum (dataGet bm ("group_id")) = some gid →
      asStr (dataGet bm ("content")) = some content →
      saveGroupMessageToDB db bm.senderID (uintOf gid) content
        (bm.message.data.getD []) = none) :
    (handleBroadcast db bm).1 = db ∧
    (handleBroadcast db bm).2.filter isDelivery = [] := by
  by_cases hv : validateMessage bm.message = true
  · rcases hev with he | he
    · rcases hrv : asNum (dataGet bm ("receiver_id")) with _ | rid
      · simp [handleBroadcast, hv, he, handlePrivateMessage, hrv]
      · rcases hcv : asStr (dataGet bm ("content")) with _ | content
        · simp [handleBroadcast, hv, he, handlePrivateMessage, hrv, hcv]
        · have hs := hpf rid content hrv hcv
          simp [handleBroadcast, hv, he, handlePrivateMessage, hrv, hcv, hs, isDelivery]
    · rcases hgv : asNum (dataGet bm ("group_id")) with _ | gid
      · simp [handleBroadcast, hv, he, handleGroupMessage, hgv]
      · rcases hcv : asStr (dataGet bm ("content")) with _ | content
        · simp [handleBroadcast, hv, he, handleGroupMessage, hgv, hcv]
        · have hs := hgf gid content hgv hcv
          simp [handleBroadcast, hv, he, handleGroupMessage, hgv, hcv, hs, isDelivery]
  · rw [Bool.not_eq_true] at hv
    simp [handleBroadcast, hv]

/-- C5 witness: user 1 sends a group message to group 5 of which it is not
a member; persistence rejects it, no row appears and nothing is sent. -/
theorem persistFailure_abandons_witness :
    (handleBroadcast dbC5 bmC5).1 = dbC5 ∧
    (handleBroadcast dbC5 bmC5).2.filter isDelivery = [] :=
  persistFailure_abandons dbC5 bmC5 (Or.inr (by decide))
    (by
      intro rid content hr hc
      rw [show asNum (dataGet bmC5 ("receiver_id")) = none from by decide] at hr
      exact Option.noConfusion hr)
    (by
      intro gid content hg hc
      rw [show asNum (dataGet bmC5 ("group_id")) = some 5 from by decide] at hg
      rw [show asStr (dataGet bmC5 ("content")) = some ("yo") from by decide] at hc
      injection hg with hg'
      injection hc with hc'
      subst hg'
      subst hc'
      decide)

/-- C6: an envelope with an empty event name, a nil payload, or a missing
(or wrongly typed) required field for its event type — receiver_id or
content for send_private_message, group_id or content for
send_group_message, conversation_id for user_typing, message_id for
message_read — produces no persistence call and no outbound operation at
all: handleBroadcast leaves the database untouched and emits an empty
trace. -/
theorem invalidEnvelope_no_effect (db : DB) (bm : BroadcastMessage)
    (h : missingRequired bm) :
    handleBroadcast db bm = (db, []) := by
  by_cases hv : validateMessage bm.message = true
  · rcases hdata : bm.message.data with _ | d
    · exfalso
      simp [validateMessage, hdata] at hv
    · rcases h with he | hd | ⟨he, hf⟩ | ⟨he, hf⟩ | ⟨he, hf⟩ | ⟨he, hf⟩
      · simp [validateMessage, he] at hv
      · rw [hdata] at hd
        exact Option.noConfusion hd
      · rcases hf with hrn | hcn
        · exfalso
          simp [validateMessage, he, hdata] at hv
          simp [dataGet, hdata] at hrn
          rw [hrn] at hv
          simp at hv
        · simp only [handleBroadcast, hv, if_pos, he]
          rcases hr : asNum (dataGet bm ("receiver_id")) with _ | rid
          · simp [handlePrivateMessage, hr]
          · simp [handlePrivateMessage, hr, hcn]
      · rcases hf with hgn | hcn
        · exfalso
          simp [validateMessage, he, hdata] at hv
          simp [dataGet, hdata] at hgn
          rw [hgn] at hv
          simp at hv
        · simp only [handleBroadcast, hv, if_pos, he]
          rcases hg : asNum (dataGet bm ("group_id")) with _ | gid
          · simp [handleGroupMessage, hg]
          · simp [handleGroupMessage, hg, hcn]
      · exfalso
        simp [validateMessage, he, hdata] at hv
        simp [dataGet, hdata] at hf
        rw [hf] at hv
        simp at hv
      · exfalso
        simp [validateMessage, he, hdata] at hv
        simp [dataGet, hdata] at hf
        rw [hf] at hv
        simp at hv
  · rw [Bool.not_eq_true] at hv
    simp [handleBroadcast, hv]

/-- C6 witness: a send_private_message without content is dropped whole. -/
theorem invalidEnvelope_no_effect_witness :
    handleBroadcast dbC1 bmC6 = (dbC1, []) :=
  invalidEnvelope_no_effect dbC1 bmC6 (by
    right
    right
    left
    exact ⟨by decide, Or.inr (by decide)⟩)

/-- C8: routing of user_typing.  A conversation key of the private form
sends, besides the typing marker, exactly one typing notification to the
embedded identity, whose payload carries user_id = sender, the payload's
is_typing value, chat_type "private" and chat_id = sender (not the embedded
identity); a group-form key fans the notification out to every group member
except the sender with chat_id = group; a key of any other shape produces
no notification. -/
theorem typingIndicator_routing (db : DB) (bm : BroadcastMessage) (conv : String)
    (hconv : asStr (dataGet bm ("conversation_id")) = some conv) :
    (∀ s chatID, conv = "private:" ++ s → parseUint32 s = some chatID →
      handleTypingIndicator db bm =
        [Action.setTyping bm.senderID conv,
         Action.sendLocal chatID ("typing") (typingPayload bm ("private") bm.senderID)]) ∧
    (∀ s chatID, conv = "group:" ++ s → parseUint32 s = some chatID →
      handleTypingIndicator db bm =
        Action.setTyping bm.senderID conv ::
          (groupMembersOf db chatID).filterMap (fun uid =>
            if uid ≠ bm.senderID then
              some (Action.sendLocal uid ("typing") (typingPayload bm ("group") chatID))
            else none)) ∧
    ((∀ s, conv = "private:" ++ s → parseUint32 s = none) →
      (∀ s, conv = "group:" ++ s → parseUint32 s = none) →
      (handleTypingIndicator db bm).filter isDelivery = []) := by
  refine ⟨?_, ?_, ?_⟩
  · intro s chatID hs hp
    subst hs
    simp [handleTypingIndicator, hconv, strHasPfx_self_append, strTrimPfx_self_append, hp]
  · intro s chatID hs hp
    subst hs
    simp [handleTypingIndicator, hconv, strHasPfx_private_of_group,
      strHasPfx_self_append, strTrimPfx_self_append, hp]
  · intro hpn hgn
    by_cases h1 : strHasPfx ("private:") conv = true
    · have hrec := strHasPfx_recompose ("private:") conv h1
      have hno := hpn (strTrimPfx ("private:") conv) hrec.symm
      simp [handleTypingIndicator, hconv, h1, hno, isDelivery]
    · by_cases h2 : strHasPfx ("group:") conv = true
      · have hrec := strHasPfx_recompose ("group:") conv h2
        have hno := hgn (strTrimPfx ("group:") conv) hrec.symm
        rw [Bool.not_eq_true] at h1
        simp [handleTypingIndicator, hconv, h1, h2, hno, isDelivery]
      · rw [Bool.not_eq_true] at h1 h2
        simp [handleTypingIndicator, hconv, h1, h2, isDelivery]

/-- C8 witness: scenario C — user 1 typing in conversation private:2 yields
one typing notification to user 2 with chat_id 1 beside the marker. -/
theorem typingIndicator_routing_witness :
    handleTypingIndicator emptyDB bmC8 =
      [Action.setTyping bmC8.senderID ("private:2"),
       Action.sendLocal 2 ("typing") (typingPayload bmC8 ("private") bmC8.senderID)] :=
  (typingIndicator_routing emptyDB bmC8 ("private:2") (by decide)).1 ("2") 2 rfl (by decide)

theorem dataGet_readPumpForward_sender_id (uid : Nat) (uname : String) (m : Message) :
    dataGet (readPumpForward uid uname m) ("sender_id") = some (JVal.num uid) := by
  show alGet (alSet (alSet (m.data.getD []) ("sender_id") (JVal.num uid))
    ("sender_username") (JVal.str uname)) ("sender_id") = some (JVal.num uid)
  rw [alGet_alSet_ne _ _ _ _ (by decide)]
  exact alGet_alSet_self _ _ _

/-- C9: ReadPump stamps the connection's own authenticated identity on every
forwarded envelope — as the BroadcastMessage sender field and as the
sender_id (and sender_username) payload keys — so two inbound payloads that
differ only in payload-supplied sender fields forward the same sender
identity. -/
theorem readPump_stamps_sender (uid : Nat) (uname : String) (m m' : Message) :
    (readPumpForward uid uname m).senderID = uid ∧
    dataGet (readPumpForward uid uname m) ("sender_id") = some (JVal.num uid) ∧
    dataGet (readPumpForward uid uname m) ("sender_username") = some (JVal.str uname) ∧
    (readPumpForward uid uname m).senderID = (readPumpForward uid uname m').senderID ∧
    dataGet (readPumpForward uid uname m) ("sender_id")
      = dataGet (readPumpForward uid uname m') ("sender_id") := by
  refine ⟨rfl, dataGet_readPumpForward_sender_id uid uname m, ?_, rfl, ?_⟩
  · exact alGet_alSet_self _ _ _
  · rw [dataGet_readPumpForward_sender_id uid uname m,
      dataGet_readPumpForward_sender_id uid uname m']

/-- C10: SendToUser is best-effort.  With no registered Connection for the
identity it returns with no effect; with a registered Connection whose open
queue has room it appends the envelope to that queue; with a full queue it
drops the envelope and changes nothing; and in the enqueue case every other
instance's queue is untouched. -/
theorem sendToUser_best_effort (h : HubState) (uid : Nat) (event : String) (d : JObj) :
    (alGet h.registry uid = none → sendToUser h uid event d = h) ∧
    (∀ c, alGet h.registry uid = some c → c.cid ∉ h.closed →
      (queueOf h c.cid).length < sendCap →
      sendToUser h uid event d =
        { h with queues := alSet h.queues c.cid (queueOf h c.cid ++ [(event, d)]) } ∧
      ∀ y, y ≠ c.cid → queueOf (sendToUser h uid event d) y = queueOf h y) ∧
    (∀ c, alGet h.registry uid = some c → c.cid ∉ h.closed →
      ¬ (queueOf h c.cid).length < sendCap →
      sendToUser h uid event d = h) := by
  refine ⟨?_, ?_, ?_⟩
  · intro hn
    simp [sendToUser, hn]
  · intro c hc hcl hlen
    constructor
    · simp [sendToUser, hc, sendMessage, hcl, hlen]
    · intro y hy
      have hlen' : ((alGet h.queues c.cid).getD []).length < sendCap := hlen
      simp only [sendToUser, hc, sendMessage, if_neg hcl, queueOf]
      rw [if_pos hlen', alGet_alSet_ne _ _ _ _ hy]
  · intro c hc hcl hlen
    simp [sendToUser, hc, sendMessage, hcl, hlen]

/-- C10 witness: an enqueue for registered user 1 together with the frame
fact that instance 99's queue is unaffected. -/
theorem sendToUser_best_effort_witness :
    sendToUser hSend 1 ("m") [] =
      { hSend with
          queues := alSet hSend.queues cSend.cid (queueOf hSend cSend.cid ++ [(("m"), [])]) } ∧
    queueOf (sendToUser hSend 1 ("m") []) 99 = queueOf hSend 99 :=
  ⟨((sendToUser_best_effort hSend 1 ("m") []).2.1 cSend (by decide) (by decide) (by decide)).1,
   ((sendToUser_best_effort hSend 1 ("m") []).2.1 cSend (by decide) (by decide) (by decide)).2
     99 (by decide)⟩

theorem regCids_reg (c : ClientC) (t : List Op) : regCids (Op.reg c :: t) = c.cid :: regCids t := rfl

theorem regCids_unreg (c : ClientC) (t : List Op) : regCids (Op.unreg c :: t) = regCids t := rfl

theorem regCids_bcast (bm : BroadcastMessage) (t : List Op) :
    regCids (Op.bcast bm :: t) = regCids t := rfl

theorem unregCids_reg (c : ClientC) (t : List Op) : unregCids (Op.reg c :: t) = unregCids t := rfl

theorem unregCids_unreg (c : ClientC) (t : List Op) :
    unregCids (Op.unreg c :: t) = c.cid :: unregCids t := rfl

theorem unregCids_bcast (bm : BroadcastMessage) (t : List Op) :
    unregCids (Op.bcast bm :: t) = unregCids t := rfl

theorem clientsOf_reg (c : ClientC) (t : List Op) : clientsOf (Op.reg c :: t) = c :: clientsOf t := rfl

theorem clientsOf_unreg (c : ClientC) (t : List Op) :
    clientsOf (Op.unreg c :: t) = c :: clientsOf t := rfl

theorem clientsOf_bcast (bm : BroadcastMessage) (t : List Op) :
    clientsOf (Op.bcast bm :: t) = clientsOf t := rfl

theorem noRegAfterUnreg_reg (c : ClientC) (t : List Op) :
    noRegAfterUnreg (Op.reg c :: t) = noRegAfterUnreg t := rfl

theorem noRegAfterUnreg_unreg (c : ClientC) (t : List Op) :
    noRegAfterUnreg (Op.unreg c :: t) = (decide (Op.reg c ∉ t) && noRegAfterUnreg t) := rfl

theorem noRegAfterUnreg_bcast (bm : BroadcastMessage) (t : List Op) :
    noRegAfterUnreg (Op.bcast bm :: t) = noRegAfterUnreg t := rfl

theorem mem_regCids (ops : List Op) (x : Nat) :
    x ∈ regCids ops ↔ ∃ c, Op.reg c ∈ ops ∧ c.cid = x := by
  simp only [regCids, List.mem_filterMap]
  constructor
  · rintro ⟨op, hop, hf⟩
    cases op with
    | reg c =>
      refine ⟨c, hop, ?_⟩
      simpa using hf
    | unreg c => simp at hf
    | bcast bm => simp at hf
  · rintro ⟨c, hc, rfl⟩
    exact ⟨Op.reg c, hc, rfl⟩

theorem mem_clientsOf_of_reg (ops : List Op) (c : ClientC) (h : Op.reg c ∈ ops) :
    c ∈ clientsOf ops := by
  simp only [clientsOf, List.mem_filterMap]
  exact ⟨Op.reg c, h, rfl⟩

theorem applyAction_registry (h : HubState) (a : Action) :
    (applyAction h a).registry = h.registry := by
  cases a
  case sendLocal u e d =>
    simp only [applyAction, sendToUser]
    cases alGet h.registry u with
    | none => rfl
    | some c =>
      simp only [sendMessage]
      split_ifs <;> rfl
  all_goals rfl

theorem applyAction_closed (h : HubState) (a : Action) :
    (applyAction h a).closed = h.closed := by
  cases a
  case sendLocal u e d =>
    simp only [applyAction, sendToUser]
    cases alGet h.registry u with
    | none => rfl
    | some c =>
      simp only [sendMessage]
      split_ifs <;> rfl
  all_goals rfl

theorem applyAction_crashed (h : HubState) (a : Action)
    (hfresh : ∀ p ∈ h.registry, (p.2).cid ∉ h.closed) :
    (applyAction h a).crashed = h.crashed := by
  cases a
  case sendLocal u e d =>
    simp only [applyAction, sendToUser]
    cases hg : alGet h.registry u with
    | none => rfl
    | some c =>
      have hcl : c.cid ∉ h.closed := hfresh (u, c) (alGet_mem _ _ _ hg)
      simp only [sendMessage, if_neg hcl]
      split_ifs <;> rfl
  all_goals rfl

theorem foldl_applyAction_registry (acts : List Action) (h : HubState) :
    (acts.foldl applyAction h).registry = h.registry := by
  induction acts generalizing h with
  | nil => rfl
  | cons a t ih => rw [List.foldl_cons, ih, applyAction_registry]

theorem foldl_applyAction_closed (acts : List Action) (h : HubState) :
    (acts.foldl applyAction h).closed = h.closed := by
  induction acts generalizing h with
  | nil => rfl
  | cons a t ih => rw [List.foldl_cons, ih, applyAction_closed]

theorem foldl_applyAction_crashed (acts : List Action) (h : HubState)
    (hfresh : ∀ p ∈ h.registry, (p.2).cid ∉ h.closed) :
    (acts.foldl applyAction h).crashed = h.crashed := by
  induction acts generalizing h with
  | nil => rfl
  | cons a t ih =>
    have hfresh' : ∀ p ∈ (applyAction h a).registry, (p.2).cid ∉ (applyAction h a).closed := by
      rw [applyAction_registry, applyAction_closed]
      exact hfresh
    rw [List.foldl_cons, ih (applyAction h a) hfresh', applyAction_crashed h a hfresh]

theorem closeCount_append (l1 l2 : List Action) (x : Nat) :
    closeCount (l1 ++ l2) x = closeCount l1 x + closeCount l2 x := by
  simp [closeCount, List.filter_append]

theorem closeCount_zero_of_none (l : List Action) (x : Nat)
    (h : ∀ a ∈ l, Action.closeSend x ≠ a) : closeCount l x = 0 := by
  rw [closeCount, List.length_eq_zero, List.filter_eq_nil_iff]
  intro a ha
  cases a
  case closeSend y =>
    simp only [decide_eq_true_eq]
    intro hyx
    exact h (Action.closeSend y) ha (by rw [hyx])
  all_goals simp

theorem handleTyping_shape (db : DB) (bm : BroadcastMessage) :
    ∀ a ∈ handleTypingIndicator db bm,
      (∃ u cv, a = Action.setTyping u cv) ∨ (∃ u e d, a = Action.sendLocal u e d) := by
  unfold handleTypingIndicator
  rcases hc : asStr (dataGet bm ("conversation_id")) with _ | conv
  · simp
  · intro a ha
    rw [List.mem_cons] at ha
    rcases ha with rfl | ha
    · exact Or.inl ⟨_, _, rfl⟩
    · right
      split_ifs at ha with h1 h2
      · rcases hp : parseUint32 (strTrimPfx ("private:") conv) with _ | cid
        · rw [hp] at ha
          simp at ha
        · rw [hp] at ha
          simp only [List.mem_singleton] at ha
          exact ⟨_, _, _, ha⟩
      · rcases hp : parseUint32 (strTrimPfx ("group:") conv) with _ | cid
        · rw [hp] at ha
          simp at ha
        · rw [hp] at ha
          rw [List.mem_filterMap] at ha
          obtain ⟨u, hu, hf⟩ := ha
          by_cases hus : u ≠ bm.senderID
          · rw [if_pos hus] at hf
            exact ⟨_, _, _, (Option.some.inj hf).symm⟩
          · rw [if_neg hus] at hf
            exact Option.noConfusion hf
      · simp at ha

theorem no_closeSend_handlePrivateMessage (db : DB) (bm : BroadcastMessage) (x : Nat) :
    Action.closeSend x ∉ (handlePrivateMessage db bm).2 := by
  unfold handlePrivateMessage
  rcases h1 : asNum (dataGet bm ("receiver_id")) with _ | rid
  · simp
  · rcases h2 : asStr (dataGet bm ("content")) with _ | content
    · simp
    · rcases h3 : savePrivateMessageToDB db bm.senderID (uintOf rid) content
        (bm.message.data.getD []) with _ | sd
      · simp [h3]
      · obtain ⟨saved, db'⟩ := sd
        simp [h3]

theorem no_closeSend_handleGroupMessage (db : DB) (bm : BroadcastMessage) (x : Nat) :
    Action.closeSend x ∉ (handleGroupMessage db bm).2 := by
  unfold handleGroupMessage
  rcases h1 : asNum (dataGet bm ("group_id")) with _ | gid
  · simp
  · rcases h2 : asStr (dataGet bm ("content")) with _ | content
    · simp
    · rcases h3 : saveGroupMessageToDB db bm.senderID (uintOf gid) content
        (bm.message.data.getD []) with _ | sd
      · simp [h3]
      · obtain ⟨saved, db'⟩ := sd
        simp [h3]

theorem no_closeSend_handleBroadcast (db : DB) (bm : BroadcastMessage) (x : Nat) :
    Action.closeSend x ∉ (handleBroadcast db bm).2 := by
  unfold handleBroadcast
  by_cases hv : validateMessage bm.message = true
  · rw [if_pos hv]
    split
    · exact no_closeSend_handlePrivateMessage db bm x
    · exact no_closeSend_handleGroupMessage db bm x
    · intro hmem
      rcases handleTyping_shape db bm _ hmem with ⟨u, cv, h'⟩ | ⟨u, e, d, h'⟩ <;> simp at h'
    · simp
    · simp
    · simp
    · simp
  · rw [if_neg hv]
    simp

theorem closeCount_hubStep_le (s : SysState) (op : Op) (x : Nat) :
    closeCount (hubStep s op).2 x ≤
      (match op with
       | Op.unreg c => if c.cid = x then 1 else 0
       | _ => 0) := by
  cases op with
  | reg c => simp [hubStep, registerClient, closeCount]
  | unreg c =>
    simp only [hubStep, unregisterClient]
    by_cases hk : (alGet s.hub.registry c.userID).isSome = true
    · by_cases hcx : c.cid = x
      · subst hcx
        simp [hk, closeCount]
      · simp [hk, closeCount, hcx]
    · rw [Bool.not_eq_true] at hk
      simp [hk, closeCount]
  | bcast bm =>
    have h0 : closeCount (hubStep s (Op.bcast bm)).2 x = 0 := by
      apply closeCount_zero_of_none
      intro a ha hax
      exact no_closeSend_handleBroadcast s.db bm x (hax ▸ ha)
    simp [h0]

theorem closeCount_run_le (s : SysState) (ops : List Op) (x : Nat) :
    closeCount (run s ops).2 x ≤ (unregCids ops).count x := by
  induction ops generalizing s with
  | nil => simp [run, closeCount]
  | cons op t ih =>
    have hsplit : (run s (op :: t)).2 = (hubStep s op).2 ++ (run (hubStep s op).1 t).2 := rfl
    rw [hsplit, closeCount_append]
    have h1 := closeCount_hubStep_le s op x
    have h2 := ih (hubStep s op).1
    cases op with
    | reg c =>
      rw [unregCids_reg]
      have h1' : closeCount (hubStep s (Op.reg c)).2 x ≤ 0 := h1
      omega
    | unreg c =>
      have h1' : closeCount (hubStep s (Op.unreg c)).2 x ≤ if c.cid = x then 1 else 0 := h1
      rw [unregCids_unreg]
      by_cases hcx : c.cid = x
      · rw [if_pos hcx] at h1'
        rw [hcx, List.count_cons_self]
        omega
      · rw [if_neg hcx] at h1'
        rw [List.count_cons_of_ne (fun e => hcx e.symm)]
        omega
    | bcast bm =>
      rw [unregCids_bcast]
      have h1' : closeCount (hubStep s (Op.bcast bm)).2 x ≤ 0 := h1
      omega

theorem hubStep_reg_fst (s : SysState) (c : ClientC) :
    (hubStep s (Op.reg c)).1 =
      { s with hub := { s.hub with registry := alSet s.hub.registry c.userID c } } := rfl

theorem hubStep_unreg_fst_present (s : SysState) (c : ClientC)
    (hk : (alGet s.hub.registry c.userID).isSome = true)
    (hcl : c.cid ∉ s.hub.closed) :
    (hubStep s (Op.unreg c)).1 =
      { s with hub :=
        { registry := alErase s.hub.registry c.userID, queues := s.hub.queues,
          closed := c.cid :: s.hub.closed, crashed := s.hub.crashed } } := by
  simp [hubStep, unregisterClient, hk, closeChan, hcl]

theorem hubStep_unreg_fst_absent (s : SysState) (c : ClientC)
    (hk : (alGet s.hub.registry c.userID).isSome = false) :
    (hubStep s (Op.unreg c)).1 = s := by
  simp [hubStep, unregisterClient, hk]

theorem hubStep_bcast_registry (s : SysState) (bm : BroadcastMessage) :
    (hubStep s (Op.bcast bm)).1.hub.registry = s.hub.registry := by
  simp [hubStep, foldl_applyAction_registry]

theorem hubStep_bcast_closed (s : SysState) (bm : BroadcastMessage) :
    (hubStep s (Op.bcast bm)).1.hub.closed = s.hub.closed := by
  simp [hubStep, foldl_applyAction_closed]

theorem hubStep_bcast_crashed (s : SysState) (bm : BroadcastMessage)
    (hfresh : ∀ p ∈ s.hub.registry, (p.2).cid ∉ s.hub.closed) :
    (hubStep s (Op.bcast bm)).1.hub.crashed = s.hub.crashed := by
  simp [hubStep, foldl_applyAction_crashed _ _ hfresh]

theorem GInv_step (s : SysState) (op : Op) (ops : List Op)
    (g : GInv s (op :: ops)) : GInv (hubStep s op).1 ops := by
  obtain ⟨nocrash, keys, fresh, regN, unregN, inj, noRAU, regFresh, det, closedDone⟩ := g
  cases op with
  | reg c =>
    rw [regCids_reg] at regN regFresh closedDone
    rw [unregCids_reg] at unregN closedDone
    rw [clientsOf_reg] at inj det
    rw [noRegAfterUnreg_reg] at noRAU
    have hcr : c.cid ∉ regCids ops := (List.nodup_cons.mp regN).1
    have regN' : (regCids ops).Nodup := (List.nodup_cons.mp regN).2
    have hinjc : ∀ b ∈ clientsOf ops, c.cid = b.cid → c = b := (List.pairwise_cons.mp inj).1
    have inj' := (List.pairwise_cons.mp inj).2
    rw [hubStep_reg_fst]
    refine ⟨nocrash, ?_, ?_, regN', unregN, inj', noRAU, ?_, ?_, ?_⟩
    · intro p hp
      rcases (mem_alSet _ _ _ _).mp hp with rfl | ⟨hmem, _⟩
      · rfl
      · exact keys p hmem
    · intro p hp
      rcases (mem_alSet _ _ _ _).mp hp with rfl | ⟨hmem, _⟩
      · intro hcc
        exact ((closedDone c.cid hcc).1) (List.mem_cons_self _ _)
      · exact fresh p hmem
    · intro p hp
      rcases (mem_alSet _ _ _ _).mp hp with rfl | ⟨hmem, _⟩
      · exact hcr
      · intro hmm
        exact regFresh p hmem (List.mem_cons_of_mem _ hmm)
    · intro p hp b hb hbc
      rcases (mem_alSet _ _ _ _).mp hp with rfl | ⟨hmem, _⟩
      · exact ((hinjc b hb hbc.symm).symm)
      · exact det p hmem b (List.mem_cons_of_mem _ hb) hbc
    · intro x hx
      exact ⟨fun hm => (closedDone x hx).1 (List.mem_cons_of_mem _ hm), (closedDone x hx).2⟩
  | unreg c =>
    rw [regCids_unreg] at regN regFresh closedDone
    rw [unregCids_unreg] at unregN closedDone
    rw [clientsOf_unreg] at inj det
    rw [noRegAfterUnreg_unreg] at noRAU
    have hnr : Op.reg c ∉ ops := by
      have := (Bool.and_eq_true _ _).mp noRAU
      simpa using this.1
    have noRAU' : noRegAfterUnreg ops = true := ((Bool.and_eq_true _ _).mp noRAU).2
    have hcu : c.cid ∉ unregCids ops := (List.nodup_cons.mp unregN).1
    have unregN' : (unregCids ops).Nodup := (List.nodup_cons.mp unregN).2
    have hinjc : ∀ b ∈ clientsOf ops, c.cid = b.cid → c = b := (List.pairwise_cons.mp inj).1
    have inj' := (List.pairwise_cons.mp inj).2
    by_cases hk : (alGet s.hub.registry c.userID).isSome = true
    · have hcl : c.cid ∉ s.hub.closed := by
        intro hc
        exact (closedDone c.cid hc).2 (List.mem_cons_self _ _)
      rw [hubStep_unreg_fst_present s c hk hcl]
      refine ⟨nocrash, ?_, ?_, regN, unregN', inj', noRAU', ?_, ?_, ?_⟩
      · intro p hp
        exact keys p ((mem_alErase _ _ _).mp hp).1
      · intro p hp
        obtain ⟨hmem, hne⟩ := (mem_alErase _ _ _).mp hp
        rw [List.mem_cons]
        rintro (hcc | hcc)
        · have := det p hmem c (List.mem_cons_self _ _) hcc.symm
          exact hne (by rw [← keys p hmem, ← this])
        · exact fresh p hmem hcc
      · intro p hp
        exact regFresh p ((mem_alErase _ _ _).mp hp).1
      · intro p hp b hb hbc
        exact det p ((mem_alErase _ _ _).mp hp).1 b (List.mem_cons_of_mem _ hb) hbc
      · intro x hx
        rw [List.mem_cons] at hx
        rcases hx with rfl | hx
        · refine ⟨?_, hcu⟩
          intro hr
          obtain ⟨d, hd, hdc⟩ := (mem_regCids ops c.cid).mp hr
          have : c = d := hinjc d (mem_clientsOf_of_reg ops d hd) hdc.symm
          exact hnr (this ▸ hd)
        · exact ⟨(closedDone x hx).1, fun hm => (closedDone x hx).2 (List.mem_cons_of_mem _ hm)⟩
    · rw [Bool.not_eq_true] at hk
      rw [hubStep_unreg_fst_absent s c hk]
      refine ⟨nocrash, keys, fresh, regN, unregN', inj', noRAU', regFresh, ?_, ?_⟩
      · intro p hp b hb hbc
        exact det p hp b (List.mem_cons_of_mem _ hb) hbc
      · intro x hx
        exact ⟨(closedDone x hx).1, fun hm => (closedDone x hx).2 (List.mem_cons_of_mem _ hm)⟩
  | bcast bm =>
    rw [regCids_bcast] at regN regFresh closedDone
    rw [unregCids_bcast] at unregN closedDone
    rw [clientsOf_bcast] at inj det
    rw [noRegAfterUnreg_bcast] at noRAU
    refine ⟨?_, ?_, ?_, regN, unregN, inj, noRAU, ?_, ?_, ?_⟩
    · rw [hubStep_bcast_crashed s bm fresh]
      exact nocrash
    · rw [hubStep_bcast_registry]
      exact keys
    · rw [hubStep_bcast_registry, hubStep_bcast_closed]
      exact fresh
    · rw [hubStep_bcast_registry]
      exact regFresh
    · rw [hubStep_bcast_registry]
      exact det
    · rw [hubStep_bcast_closed]
      exact closedDone

theorem run_no_crash (ops : List Op) : ∀ s, GInv s ops → (run s ops).1.hub.crashed = false := by
  induction ops with
  | nil => exact fun s g => g.nocrash
  | cons op t ih =>
    intro s g
    exact ih (hubStep s op).1 (GInv_step s op t g)

theorem GInv_boot (db : DB) (ops : List Op) (h : ProgramLike ops) : GInv (boot db) ops := by
  obtain ⟨h1, h2, h3, h4⟩ := h
  refine ⟨rfl, ?_, ?_, h1, h2, h3, h4, ?_, ?_, ?_⟩ <;> simp [boot]

/-- C7: for every request sequence of the shape the surrounding program can
produce (each connection instance registered at most once, unregistered at
most once, never re-registered after its unregister), the serialized loop
never hits a runtime fault — no close of an already-closed Send channel and
no send on a closed channel, so every later envelope is still processed —
and no connection's Send channel is ever closed twice. -/
theorem serializedLoop_safe (db : DB) (ops : List Op) (h : ProgramLike ops) :
    (run (boot db) ops).1.hub.crashed = false ∧
    ∀ x, closeCount (run (boot db) ops).2 x ≤ 1 := by
  constructor
  · exact run_no_crash ops (boot db) (GInv_boot db ops h)
  · intro x
    exact le_trans (closeCount_run_le (boot db) ops x)
      (List.nodup_iff_count_le_one.mp h.2.1 x)

/-- C7 witness: a connect / chat / reconnect / disconnect sequence for one
identity runs without fault and closes channel 11 at most once. -/
theorem serializedLoop_safe_witness :
    (run (boot emptyDB) opsSafe).1.hub.crashed = false ∧
    closeCount (run (boot emptyDB) opsSafe).2 11 ≤ 1 :=
  ⟨(serializedLoop_safe emptyDB opsSafe
      (by refine ⟨?_, ?_, ?_, ?_⟩ <;> decide)).1,
   (serializedLoop_safe emptyDB opsSafe
      (by refine ⟨?_, ?_, ?_, ?_⟩ <;> decide)).2 11⟩

end Realtime
